import Mathlib

/-!
Shallow embedding of `gnippy/powertrackclient.py`: the `PowerTrackClient`
facade (`connect` / `wait` / `disconnect`) and the `Worker` thread
(`stop` / `stopped` / `stream` / `run`), together with theorems settling
the specification claims about them.

Modelling conventions:
* Lines on the wire are `String`s; the empty string is Python's falsy
  empty bytes line, so `if line:` becomes `if l = "" then ... else ...`.
* Python exceptions become an explicit `PyError` value threaded through
  `Except`-style results.  Dereferencing an attribute on `None`
  (e.g. `self.worker.join(...)` when `self.worker is None`) is the
  `attributeErrorNoneType` constructor.
* The `threading.Event` stop flag, which another thread may set at any
  moment, is modelled inside the streaming loop as a time-indexed
  oracle `stopFlag : Nat → Bool`: `stopFlag i` is the value
  `self._stop_event.is_set()` returns at the check that follows the
  `i`-th line of the loop.  Set-once monotonicity is a hypothesis where
  a claim needs it.
* `response.iter_lines()` is a finite list of `Chunk`s: either a
  received line or a read failure raised by the iterator mid-stream.
* Thread join timing is abstracted by a `finishTime : Nat` environment
  parameter (the instant the worker thread terminates);
  `Thread.join(timeout)` then `is_alive()` becomes `joinIsAlive`.
-/

/-- A line of the stream body (Python `bytes`); `""` is the empty line. -/
abbrev Line := String

/-- The `("account", "password")` authentication tuple. -/
abbrev Auth := String × String

/-- Python exceptions that the embedded code can surface. -/
inductive PyError where
  /-- `RuntimeError(msg)` as raised by `PowerTrackClient.connect`. -/
  | runtimeError (msg : String)
  /-- `AttributeError: 'NoneType' object has no attribute a` — the
  crash from dereferencing `self.worker` while it is still `None`. -/
  | attributeErrorNoneType (a : String)
  /-- `requests.exceptions.ConnectionError`: transport failure. -/
  | connectionError
  /-- `requests.exceptions.HTTPError` from `raise_for_status()`. -/
  | httpStatusError (status : Nat)
  /-- An exception escaping the user callback `on_data`. -/
  | callbackError
  deriving DecidableEq, Repr

/-- Is the error a null-reference-style crash (attribute access on
`None`), as opposed to a deliberate precondition/guard error? -/
def PyError.isNullRefStyle : PyError → Bool
  | .attributeErrorNoneType _ => true
  | _ => false

/-- One item produced by `response.iter_lines()`: a decoded line, or an
exception raised by the iterator while reading the socket. -/
inductive Chunk where
  | line (l : Line)
  | readError
  deriving DecidableEq, Repr

/-- The HTTP response held by `Worker.run`'s `with closing(...)` block:
its status code and the stream of items `iter_lines()` will yield. -/
structure Response where
  status : Nat
  chunks : List Chunk
  deriving DecidableEq, Repr

/-- Outcome of `requests.get(url, auth=auth, stream=True)`: either the
transport fails before any response object exists, or a `Response`. -/
inductive OpenResult where
  | connError
  | ok (resp : Response)
  deriving DecidableEq, Repr

/-- `Worker`: the background thread object.  It stores the endpoint and
its `threading.Event` stop flag (`_stop_event`); `stopFlag` is the
event's set/cleared state.  The callback and thread internals live in
the environment parameters of `Worker.stream` / `Worker.run`. -/
structure Worker where
  url : String
  auth : Auth
  stopFlag : Bool
  deriving DecidableEq, Repr

/-- `Worker.__init__`: the `threading.Event` starts cleared. -/
def Worker.init (url : String) (auth : Auth) : Worker :=
  ⟨url, auth, false⟩

/-- `Worker.stop`: `self._stop_event.set()`. -/
def Worker.stop (w : Worker) : Worker :=
  { w with stopFlag := true }

/-- `Worker.stopped`: `self._stop_event.is_set()`. -/
def Worker.stopped (w : Worker) : Bool :=
  w.stopFlag

/-- The operations the source ever performs on a worker's stop flag:
`stop()` (sets the event) and `stopped()` (reads it, no state change). -/
inductive WorkerOp where
  | stop
  | stopped
  deriving DecidableEq, Repr

/-- Effect of one `WorkerOp` on the worker state. -/
def Worker.applyOp (w : Worker) : WorkerOp → Worker
  | .stop => w.stop
  | .stopped => w

/-- Effect of a sequence of `WorkerOp`s, applied left to right. -/
def Worker.applyOps (w : Worker) : List WorkerOp → Worker
  | [] => w
  | op :: ops => (w.applyOp op).applyOps ops

/-- Result of one execution of the `for line in response.iter_lines()`
loop body chain in `Worker.stream`. -/
structure StreamOut where
  /-- `.ok ()` if the loop ended normally (list exhausted or `break`),
  otherwise the exception that escaped the loop. -/
  outcome : Except PyError Unit
  /-- The lines passed to `self.on_data`, in invocation order. -/
  calls : List Line
  /-- How many loop iterations started (lines the iterator yielded). -/
  consumed : Nat
  deriving Repr

/-- `Worker.stream(response)`, embedded over the chunk list.

```python
for line in response.iter_lines():
    if line:
        self.on_data(line)
    if self.stopped():
        break
```

`cb` is `self.on_data` (it may raise), `stopFlag i` is what
`self.stopped()` returns at the check after the `i`-th line, and `i` is
the current loop index. -/
def Worker.stream (cb : Line → Except PyError Unit) (stopFlag : Nat → Bool) :
    Nat → List Chunk → StreamOut
  | _, [] => ⟨.ok (), [], 0⟩
  | _, .readError :: _ => ⟨.error .connectionError, [], 0⟩
  | i, .line l :: rest =>
      if l = "" then
        if stopFlag i then ⟨.ok (), [], 1⟩
        else
          let s := Worker.stream cb stopFlag (i + 1) rest
          ⟨s.outcome, s.calls, s.consumed + 1⟩
      else
        match cb l with
        | .error e => ⟨.error e, [l], 1⟩
        | .ok () =>
            if stopFlag i then ⟨.ok (), [l], 1⟩
            else
              let s := Worker.stream cb stopFlag (i + 1) rest
              ⟨s.outcome, l :: s.calls, s.consumed + 1⟩

/-- A callback that always succeeds (the usual, non-raising case). -/
def pureCb : Line → Except PyError Unit := fun _ => .ok ()

/-- `requests.Response.raise_for_status()`: raises `HTTPError` exactly
for 4xx and 5xx status codes. -/
def raiseForStatus (resp : Response) : Except PyError Unit :=
  if 400 ≤ resp.status ∧ resp.status < 600 then
    .error (.httpStatusError resp.status)
  else
    .ok ()

/-- Result of `Worker.run`, with resource accounting for the
connection object. -/
structure RunOut where
  /-- `.ok ()` if `run` returned normally, else the exception that the
  worker thread terminated with. -/
  outcome : Except PyError Unit
  /-- The lines passed to `self.on_data`, in invocation order. -/
  calls : List Line
  /-- How many connection resources `run` ever held (0 if
  `requests.get` itself raised, else 1). -/
  acquired : Nat
  /-- How many times the connection resource was closed. -/
  released : Nat
  deriving Repr

/-- `contextlib.closing(...)`: run the body on the response; whether the
body returns or raises, `__exit__` closes the resource exactly once. -/
def withClosing (resp : Response)
    (body : Response → Except PyError Unit × List Line) : RunOut :=
  let r := body resp
  ⟨r.1, r.2, 1, 1⟩

/-- `Worker.run`, embedded.

```python
with closing(requests.get(self.url, auth=self.auth, stream=True)) as r:
    r.raise_for_status()
    self.stream(r)
```

`opn` is the outcome of `requests.get`; if the transport raises, no
response object is ever produced, so no resource is acquired. -/
def Worker.run (opn : OpenResult) (cb : Line → Except PyError Unit)
    (stopFlag : Nat → Bool) : RunOut :=
  match opn with
  | .connError => ⟨.error .connectionError, [], 0, 0⟩
  | .ok resp =>
      withClosing resp fun r =>
        match raiseForStatus r with
        | .error e => (.error e, [])
        | .ok () =>
            let s := Worker.stream cb stopFlag 0 r.chunks
            (s.outcome, s.calls)

/-- `PowerTrackClient`: callback aside (it is only handed to the
worker), its state is the endpoint configuration and the optional
worker handle (`None` until `connect`). -/
structure PowerTrackClient where
  url : String
  auth : Auth
  worker : Option Worker
  deriving DecidableEq, Repr

/-- `PowerTrackClient.__init__`: resolved config stored, `worker = None`. -/
def PowerTrackClient.init (url : String) (auth : Auth) : PowerTrackClient :=
  ⟨url, auth, none⟩

/-- `PowerTrackClient.connect`, embedded.

```python
if self.worker:
    raise RuntimeError("Cannot connect: PowerTrackClient is not re-entrant")
self.worker = Worker(self.url, self.auth, self.callback)
self.worker.daemon = True
self.worker.start()
```

A `Worker` object is always truthy, so the guard is exactly
`self.worker is not None`.  Returns the raised error (state unchanged)
or the updated client. -/
def PowerTrackClient.connect (c : PowerTrackClient) :
    Except PyError Unit × PowerTrackClient :=
  match c.worker with
  | some _ =>
      (.error (.runtimeError "Cannot connect: PowerTrackClient is not re-entrant"), c)
  | none => (.ok (), { c with worker := some (Worker.init c.url c.auth) })

/-- `threading.Thread.join(timeout)` followed by `is_alive()`:
`finishTime` is the instant the worker thread terminates.  `join(None)`
blocks until termination, so `is_alive()` is `false` afterwards;
`join(t)` returns at `min t finishTime`, so the thread is still alive
afterwards exactly when `t < finishTime`. -/
def joinIsAlive (finishTime : Nat) (timeout : Option Nat) : Bool :=
  match timeout with
  | none => false
  | some t => decide (t < finishTime)

/-- `PowerTrackClient.wait`, embedded.

```python
self.worker.join(timeout=timeout)
return self.worker.is_alive()
```

If `self.worker` is `None`, the attribute access `.join` raises
`AttributeError`.  `join` never mutates client or worker state, so the
(unchanged) client is returned alongside the liveness result. -/
def PowerTrackClient.wait (c : PowerTrackClient) (finishTime : Nat)
    (timeout : Option Nat) : Except PyError (Bool × PowerTrackClient) :=
  match c.worker with
  | none => .error (.attributeErrorNoneType "join")
  | some _ => .ok (joinIsAlive finishTime timeout, c)

/-- `PowerTrackClient.disconnect`, embedded.

```python
self.worker.stop()
return self.wait(timeout=timeout)
```

If `self.worker` is `None`, the attribute access `.stop` raises
`AttributeError`. -/
def PowerTrackClient.disconnect (c : PowerTrackClient) (finishTime : Nat)
    (timeout : Option Nat) : Except PyError (Bool × PowerTrackClient) :=
  match c.worker with
  | none => .error (.attributeErrorNoneType "stop")
  | some w =>
      PowerTrackClient.wait { c with worker := some w.stop } finishTime timeout

/-- Modelled from the spec: `disconnect(timeoutOrNone)` "calls
`requestStop()` on the handle, then `wait(timeoutOrNone)`, returning
whatever `wait` returns".  Written from the spec's words, to be
compared with the source embedding `PowerTrackClient.disconnect`. -/
def disconnectSpec (c : PowerTrackClient) (finishTime : Nat)
    (timeout : Option Nat) : Except PyError (Bool × PowerTrackClient) :=
  match c.worker with
  | none => .error (.attributeErrorNoneType "stop")
  | some w =>
      let afterStop := { c with worker := some (Worker.stop w) }
      afterStop.wait finishTime timeout

/-! ## Helper lemmas -/

/-- With a never-raising callback and the stop flag never set, the loop
invokes the callback exactly on the non-empty lines, in arrival order. -/
theorem stream_calls_no_stop (lines : List Line) (i : Nat) :
    (Worker.stream pureCb (fun _ => false) i (lines.map Chunk.line)).calls
      = lines.filter (fun l => l ≠ "") := by
  induction lines generalizing i with
  | nil => rfl
  | cons l rest ih =>
      by_cases h : l = "" <;>
        simp [Worker.stream, pureCb, h, List.filter_cons, ih]

/-- Once the flag is set (index `i` at or past the set point `k`), the
loop consumes at most one further line: the very next check breaks. -/
theorem stream_consumed_after_flag (cb : Line → Except PyError Unit)
    (stopFlag : Nat → Bool) (i : Nat) (hi : stopFlag i = true) :
    ∀ chunks : List Chunk, (Worker.stream cb stopFlag i chunks).consumed ≤ 1 := by
  intro chunks
  match chunks with
  | [] => simp [Worker.stream]
  | .readError :: rest => simp [Worker.stream]
  | .line l :: rest =>
      by_cases h : l = ""
      · simp [Worker.stream, h, hi]
      · cases hcb : cb l with
        | error e => simp [Worker.stream, h, hcb]
        | ok u => cases u; simp [Worker.stream, h, hcb, hi]

/-- If the stop flag is monotone and set by index `k`, the loop started
at index `i ≤ k` consumes at most `k + 1 - i` lines. -/
theorem stream_consumed_le (cb : Line → Except PyError Unit)
    (stopFlag : Nat → Bool) (k : Nat)
    (hmono : ∀ i j, i ≤ j → stopFlag i = true → stopFlag j = true)
    (hk : stopFlag k = true) :
    ∀ (chunks : List Chunk) (i : Nat), i ≤ k →
      (Worker.stream cb stopFlag i chunks).consumed ≤ k + 1 - i := by
  intro chunks
  induction chunks with
  | nil => intro i hik; simp [Worker.stream]
  | cons c rest ih =>
      intro i hik
      have hpos : 1 ≤ k + 1 - i := by omega
      match c with
      | .readError => simp [Worker.stream]
      | .line l =>
          by_cases hs : stopFlag i = true
          · exact le_trans (stream_consumed_after_flag cb stopFlag i hs _) hpos
          · have hlt : i < k := by
              rcases Nat.lt_or_ge i k with h | h
              · exact h
              · exact absurd (hmono k i h hk) hs
            have hrest := ih (i + 1) (by omega)
            have hs' : stopFlag i = false := by
              cases hval : stopFlag i
              · rfl
              · exact absurd hval hs
            by_cases h : l = ""
            · simp [Worker.stream, h, hs']
              omega
            · cases hcb : cb l with
              | error e => simp [Worker.stream, h, hcb]; omega
              | ok u =>
                  cases u
                  simp [Worker.stream, h, hcb, hs']
                  omega

/-- `applyOps` never clears a set stop flag: the only mutating
operation in the source is `stop()`, which sets it. -/
theorem applyOps_keeps_stopped (w : Worker) (ops : List WorkerOp)
    (h : w.stopped = true) : (w.applyOps ops).stopped = true := by
  induction ops generalizing w with
  | nil => exact h
  | cons op ops ih =>
      cases op with
      | stop => exact ih w.stop rfl
      | stopped => exact ih w h

/-! ## Claim theorems -/

/-- C1: for every sequence of lines delivered by the stream iterator,
the callback is invoked exactly once per non-empty line, in arrival
order, and never for an empty line; in particular, for the input
`[b"line1", b"", b"line2"]` the recorded callback sequence is exactly
`[b"line1", b"line2"]`. -/
theorem stream_callback_once_per_nonempty_line :
    (∀ lines : List Line,
      (Worker.stream pureCb (fun _ => false) 0 (lines.map Chunk.line)).calls
        = lines.filter (fun l => l ≠ "")) ∧
    (Worker.stream pureCb (fun _ => false) 0
        [Chunk.line "line1", Chunk.line "", Chunk.line "line2"]).calls
      = ["line1", "line2"] := by
  refine ⟨fun lines => stream_calls_no_stop lines 0, ?_⟩
  have h := stream_calls_no_stop ["line1", "", "line2"] 0
  simpa using h

/-- C3: once the stop flag is set (monotone, true at check index `k`),
the stream iteration consumes at most `k + 1` lines in total — at most
one line after the flag is observed — so the loop always exits; and
`wait(None)` on a client with a worker returns `false` (thread no
longer alive after an indefinite `join`). -/
theorem stream_honors_stop_within_one_line (stopFlag : Nat → Bool) (k : Nat)
    (hmono : ∀ i j, i ≤ j → stopFlag i = true → stopFlag j = true)
    (hk : stopFlag k = true) :
    (∀ (cb : Line → Except PyError Unit) (chunks : List Chunk),
        (Worker.stream cb stopFlag 0 chunks).consumed ≤ k + 1) ∧
    (∀ (c : PowerTrackClient) (w : Worker) (finishTime : Nat),
        c.worker = some w → c.wait finishTime none = Except.ok (false, c)) := by
  constructor
  · intro cb chunks
    have h := stream_consumed_le cb stopFlag k hmono hk chunks 0 (Nat.zero_le k)
    simpa using h
  · intro c w finishTime hw
    simp [PowerTrackClient.wait, hw, joinIsAlive]

/-- Witness for C3 at a concrete flag, set point and stream. -/
theorem stream_honors_stop_within_one_line_witness :
    (Worker.stream pureCb (fun _ => true) 0
        [Chunk.line "a", Chunk.line "b", Chunk.line "c"]).consumed ≤ 0 + 1 :=
  (stream_honors_stop_within_one_line (fun _ => true) 0
      (fun _ _ _ h => h) rfl).1 pureCb
    [Chunk.line "a", Chunk.line "b", Chunk.line "c"]

/-- C10: the stop-flag check runs only after a line has been received
and dispatched, so even with the flag already set before iteration the
first line is consumed, and delivered when non-empty, before the loop
exits; the check also runs after empty lines, so a stream of only
empty keep-alive lines still stops after its first line. -/
theorem stream_stop_preset_first_line_still_delivered :
    (∀ (l : Line) (rest : List Chunk),
        Worker.stream pureCb (fun _ => true) 0 (Chunk.line l :: rest)
          = ⟨Except.ok (), if l = "" then [] else [l], 1⟩) ∧
    (∀ n : Nat,
        (Worker.stream pureCb (fun _ => true) 0
            (List.replicate (n + 1) (Chunk.line ""))).consumed = 1) := by
  constructor
  · intro l rest
    by_cases h : l = "" <;> simp [Worker.stream, pureCb, h]
  · intro n
    simp [List.replicate, Worker.stream]

/-- C9: `stop()` is idempotent (any positive number of calls equals
one call), the flag starts `false`, `stop()` sets it to `true`, and no
operation of the worker's flag API ever resets it — `stopped()` stays
`true` forever after. -/
theorem stop_idempotent_and_flag_monotonic :
    (∀ w : Worker, w.stop.stop = w.stop) ∧
    (∀ (url : String) (auth : Auth), (Worker.init url auth).stopped = false) ∧
    (∀ w : Worker, w.stop.stopped = true) ∧
    (∀ (w : Worker) (n : Nat),
        w.applyOps (List.replicate (n + 1) WorkerOp.stop) = w.stop) ∧
    (∀ (w : Worker) (ops : List WorkerOp),
        w.stopped = true → (w.applyOps ops).stopped = true) := by
  refine ⟨fun w => rfl, fun url auth => rfl, fun w => rfl, ?_, ?_⟩
  · intro w n
    induction n with
    | zero => rfl
    | succ m ih =>
        have : w.stop.applyOps (List.replicate (m + 1) WorkerOp.stop)
            = w.stop.stop := ih
        simpa [List.replicate, Worker.applyOps, Worker.applyOp] using this
  · exact applyOps_keeps_stopped

/-- C2: whenever a worker handle exists — running, finished, or after
`disconnect()` — a further `connect()` fails with the `RuntimeError`
and leaves the client (hence the worker handle) unchanged, creating no
new worker; and `wait` / `disconnect` never clear the handle, so this
covers every moment after the first successful `connect()`. -/
theorem connect_second_call_always_fails (c : PowerTrackClient) :
    (∀ w : Worker, c.worker = some w →
        c.connect = (Except.error (PyError.runtimeError
          "Cannot connect: PowerTrackClient is not re-entrant"), c)) ∧
    (c.worker = none →
        (c.connect.2.connect).1 = Except.error (PyError.runtimeError
          "Cannot connect: PowerTrackClient is not re-entrant")) ∧
    (∀ (finishTime : Nat) (timeout : Option Nat) (b : Bool)
        (c' : PowerTrackClient),
        c.wait finishTime timeout = Except.ok (b, c') → c'.worker = c.worker) ∧
    (∀ (finishTime : Nat) (timeout : Option Nat) (b : Bool)
        (c' : PowerTrackClient),
        c.disconnect finishTime timeout = Except.ok (b, c') →
          c'.worker.isSome = true) := by
  refine ⟨?_, ?_, ?_, ?_⟩
  · intro w hw
    simp [PowerTrackClient.connect, hw]
  · intro hw
    simp [PowerTrackClient.connect, hw]
  · intro finishTime timeout b c' h
    cases hw : c.worker with
    | none => simp [PowerTrackClient.wait, hw] at h
    | some w =>
        simp [PowerTrackClient.wait, hw] at h
        obtain ⟨-, hc⟩ := h
        subst hc
        exact hw
  · intro finishTime timeout b c' h
    cases hw : c.worker with
    | none => simp [PowerTrackClient.disconnect, hw] at h
    | some w =>
        simp [PowerTrackClient.disconnect, PowerTrackClient.wait, hw] at h
        obtain ⟨-, hc⟩ := h
        subst hc
        rfl

/-- Witness for C2 on a concrete connected client. -/
theorem connect_second_call_always_fails_witness :
    (PowerTrackClient.init "u" ("a", "p")).connect.2.connect
      = (Except.error (PyError.runtimeError
          "Cannot connect: PowerTrackClient is not re-entrant"),
         (PowerTrackClient.init "u" ("a", "p")).connect.2) :=
  (connect_second_call_always_fails
      (PowerTrackClient.init "u" ("a", "p")).connect.2).1
    (Worker.init "u" ("a", "p")) rfl

/-- C4: if opening the stream fails — transport `ConnectionError` or a
non-success HTTP status — the worker's `run` ends in an error with the
callback never invoked; a response that was obtained is closed exactly
once before the error surfaces (on a transport failure no response
object ever exists, so no resource is held); `wait(None)` afterwards
reports the worker not alive. -/
theorem run_open_failure_no_callback (cb : Line → Except PyError Unit)
    (stopFlag : Nat → Bool) :
    (Worker.run OpenResult.connError cb stopFlag
        = ⟨Except.error PyError.connectionError, [], 0, 0⟩) ∧
    (∀ resp : Response, 400 ≤ resp.status → resp.status < 600 →
        Worker.run (OpenResult.ok resp) cb stopFlag
          = ⟨Except.error (PyError.httpStatusError resp.status), [], 1, 1⟩) ∧
    (∀ finishTime : Nat, joinIsAlive finishTime none = false) := by
  refine ⟨rfl, ?_, fun finishTime => rfl⟩
  intro resp h1 h2
  simp [Worker.run, withClosing, raiseForStatus, h1, h2]

/-- Witness for C4 at a concrete 500 response. -/
theorem run_open_failure_no_callback_witness :
    Worker.run (OpenResult.ok ⟨500, [Chunk.line "x"]⟩) pureCb (fun _ => false)
      = ⟨Except.error (PyError.httpStatusError 500), [], 1, 1⟩ :=
  (run_open_failure_no_callback pureCb (fun _ => false)).2.1
    ⟨500, [Chunk.line "x"]⟩ (by norm_num) (by norm_num)

/-- C5 counterexample: on a freshly constructed client (no `connect()`
yet), `wait` and `disconnect` fail with the `AttributeError` raised by
dereferencing the `None` worker — a null-reference-style crash — so
the claim that they fail with a precondition error rather than a
null-reference-style crash is false. -/
theorem wait_before_connect_null_ref_counterexample :
    (PowerTrackClient.init "u" ("a", "p")).wait 0 none
        = Except.error (PyError.attributeErrorNoneType "join") ∧
    (PowerTrackClient.init "u" ("a", "p")).disconnect 0 none
        = Except.error (PyError.attributeErrorNoneType "stop") ∧
    (PyError.attributeErrorNoneType "join").isNullRefStyle = true ∧
    (PyError.attributeErrorNoneType "stop").isNullRefStyle = true :=
  ⟨rfl, rfl, rfl, rfl⟩

/-- C5 (amended): calling `disconnect()` or `wait()` before `connect()`
fails with the `AttributeError` from accessing `.join` / `.stop` on the
absent (`None`) worker — a null-reference-style failure; the source has
no dedicated precondition check. -/
theorem wait_before_connect_attribute_error (c : PowerTrackClient)
    (h : c.worker = none) (finishTime : Nat) (timeout : Option Nat) :
    c.wait finishTime timeout
        = Except.error (PyError.attributeErrorNoneType "join") ∧
    c.disconnect finishTime timeout
        = Except.error (PyError.attributeErrorNoneType "stop") ∧
    (PyError.attributeErrorNoneType "join").isNullRefStyle = true := by
  refine ⟨?_, ?_, rfl⟩ <;>
    simp [PowerTrackClient.wait, PowerTrackClient.disconnect, h]

/-- Witness for the amended C5 on a fresh client. -/
theorem wait_before_connect_attribute_error_witness :
    (PowerTrackClient.init "u" ("a", "p")).wait 7 (some 2)
      = Except.error (PyError.attributeErrorNoneType "join") :=
  (wait_before_connect_attribute_error
      (PowerTrackClient.init "u" ("a", "p")) rfl 7 (some 2)).1

/-- C6: on every exit path of `run` where a response object exists —
normal end of stream, stop-signal break, HTTP status error, iterator
read error, or an exception from the callback — the connection is
closed exactly once; on a transport failure no resource is ever
acquired, so none leaks (released = acquired on all paths). -/
theorem run_releases_resource_exactly_once :
    ∀ (cb : Line → Except PyError Unit) (stopFlag : Nat → Bool),
      (∀ resp : Response,
          (Worker.run (OpenResult.ok resp) cb stopFlag).released = 1 ∧
          (Worker.run (OpenResult.ok resp) cb stopFlag).acquired = 1) ∧
      (Worker.run OpenResult.connError cb stopFlag).acquired = 0 ∧
      (Worker.run OpenResult.connError cb stopFlag).released = 0 := by
  intro cb stopFlag
  exact ⟨fun resp => ⟨rfl, rfl⟩, rfl, rfl⟩

/-- C7: `disconnect(timeout)` is exactly `requestStop()` on the worker
followed by `wait(timeout)` (the spec-side composition), and it
returns precisely what `wait` returns: whether the worker is still
alive after joining with the given timeout. -/
theorem disconnect_is_stop_then_wait (c : PowerTrackClient)
    (finishTime : Nat) (timeout : Option Nat) :
    (c.disconnect finishTime timeout = disconnectSpec c finishTime timeout) ∧
    (∀ w : Worker, c.worker = some w →
        c.disconnect finishTime timeout
          = ({ c with worker := some w.stop } : PowerTrackClient).wait
              finishTime timeout) ∧
    (∀ (w : Worker) (t : Nat), c.worker = some w →
        c.disconnect finishTime (some t)
          = Except.ok (decide (t < finishTime),
              { c with worker := some w.stop })) := by
  refine ⟨?_, ?_, ?_⟩
  · cases hw : c.worker <;>
      simp [PowerTrackClient.disconnect, disconnectSpec, hw]
  · intro w hw
    simp [PowerTrackClient.disconnect, hw]
  · intro w t hw
    simp [PowerTrackClient.disconnect, PowerTrackClient.wait, hw, joinIsAlive]

/-- Witness for C7 on a concrete connected client and timeout. -/
theorem disconnect_is_stop_then_wait_witness :
    (⟨"u", ("a", "p"), some (Worker.init "u" ("a", "p"))⟩ :
        PowerTrackClient).disconnect 5 (some 2)
      = Except.ok (decide (2 < 5),
          ⟨"u", ("a", "p"), some (Worker.init "u" ("a", "p")).stop⟩) :=
  (disconnect_is_stop_then_wait
      ⟨"u", ("a", "p"), some (Worker.init "u" ("a", "p"))⟩ 5 (some 2)).2.2
    (Worker.init "u" ("a", "p")) 2 rfl

/-- C8: with a worker present, `wait(None)` blocks until the worker
terminates and returns `false`; `wait(some t)` returns `true` exactly
when the worker is still running after the timeout (`t < finishTime`)
and `false` once it has finished (`finishTime ≤ t`); and in every case
the client — hence the worker and its stop flag — is returned
unchanged: a timeout expiry does not terminate or alter the worker. -/
theorem wait_liveness_and_no_mutation (c : PowerTrackClient) (w : Worker)
    (h : c.worker = some w) (finishTime : Nat) :
    (c.wait finishTime none = Except.ok (false, c)) ∧
    (∀ t : Nat, c.wait finishTime (some t)
        = Except.ok (decide (t < finishTime), c)) ∧
    (∀ t : Nat, t < finishTime →
        c.wait finishTime (some t) = Except.ok (true, c)) ∧
    (∀ t : Nat, finishTime ≤ t →
        c.wait finishTime (some t) = Except.ok (false, c)) := by
  refine ⟨?_, ?_, ?_, ?_⟩
  · simp [PowerTrackClient.wait, h, joinIsAlive]
  · intro t
    simp [PowerTrackClient.wait, h, joinIsAlive]
  · intro t ht
    simp [PowerTrackClient.wait, h, joinIsAlive, ht]
  · intro t ht
    simp [PowerTrackClient.wait, h, joinIsAlive, Nat.not_lt.mpr ht]

/-- Witness for C8 on a concrete connected client. -/
theorem wait_liveness_and_no_mutation_witness :
    (⟨"u", ("a", "p"), some (Worker.init "u" ("a", "p"))⟩ :
        PowerTrackClient).wait 5 none
      = Except.ok (false,
          ⟨"u", ("a", "p"), some (Worker.init "u" ("a", "p"))⟩) :=
  (wait_liveness_and_no_mutation
      ⟨"u", ("a", "p"), some (Worker.init "u" ("a", "p"))⟩
      (Worker.init "u" ("a", "p")) rfl 5).1

/-- Witness for C9: the flag, once set, survives a concrete mix of
further operations. -/
theorem stop_idempotent_and_flag_monotonic_witness :
    (((Worker.init "u" ("a", "p")).stop).applyOps
        [WorkerOp.stopped, WorkerOp.stop, WorkerOp.stopped]).stopped = true :=
  stop_idempotent_and_flag_monotonic.2.2.2.2
    (Worker.init "u" ("a", "p")).stop
    [WorkerOp.stopped, WorkerOp.stop, WorkerOp.stopped] rfl
